import Mathlib

/-!
Verification of the spinach RAG backend (Python sources under backend/)
against its natural-language specification.

The Python code is shallowly embedded: each relevant function of
backend/llm.py, backend/main.py and backend/routes/documents.py is
translated to an executable Lean definition operating on explicit data
(lists of lines, message lists, explicit store states).  Theorems then
settle each claim about the embedded code.

Python string methods are modelled by executable Lean equivalents:
`s.startswith(p)` as equality of the leading characters with `p`,
`s.endswith(p)` as equality of the trailing characters with `p`, and
the emptiness test `not s.strip()` as all characters being whitespace.
-/

namespace Spinach

/-- Model of the Python string method s.startswith(p): the first
p.length characters of s equal p. -/
def startswith (s p : String) : Bool :=
  s.take p.length == p

/-- Model of the Python string method s.endswith(p): the last p.length
characters of s equal p. -/
def endswith (s p : String) : Bool :=
  s.drop (s.length - p.length) == p

/-- Model of the Python emptiness test "not s.strip()": s has no
non-whitespace character. -/
def strip_empty (s : String) : Bool :=
  s.toList.all Char.isWhitespace

/-- A chat message, as in backend/models.Message used by llm.py:
a role string and a content string. -/
structure Message where
  role : String
  content : String
deriving Repr, DecidableEq

/-- The module-level DEFAULT_SYSTEM_PROMPT constant of backend/llm.py
(lines 13-15). -/
def DEFAULT_SYSTEM_PROMPT : String :=
  "あなたは親切で知識豊富なAIアシスタントです。\nユーザーの質問に対して、正確で分かりやすい回答を提供してください。\n提供された参考資料がある場合は、それを活用して回答してください。"

/-- The fixed default system message that chat_completion inserts
(llm.py line 71). -/
def default_system_message : Message :=
  { role := "system", content := DEFAULT_SYSTEM_PROMPT }

/-- Embedding of llm.py lines 69-71 inside LLMClient.chat_completion:
if the converted message list is empty or its first element does not have
role "system", the default system message is inserted at position 0;
otherwise the list is left as it is. -/
def prepare_messages (messages : List Message) : List Message :=
  if messages.isEmpty ∨ messages.head?.map Message.role ≠ some "system" then
    default_system_message :: messages
  else
    messages

/-- Embedding of the per-line test at llm.py line 91: a line starting with
the data marker carries a payload, obtained by dropping the six marker
characters (line 92); any other line carries none. -/
def dataPayload (line : String) : Option String :=
  if startswith line "data: " then some (line.drop 6) else none

/-- Embedding of the streaming loop of LLMClient.chat_completion
(llm.py lines 90-97): for each line, if it starts with the data marker,
drop the marker; if the remaining payload is the terminal marker, stop;
otherwise yield the payload and continue.  Lines without the data marker
are passed over without effect. -/
def chat_completion_stream : List String → List String
  | [] => []
  | line :: rest =>
    if startswith line "data: " then
      let data := line.drop 6
      if data = "[DONE]" then []
      else data :: chat_completion_stream rest
    else
      chat_completion_stream rest

/-- Modelled from the spec (section 6, streaming wire contract), as a
reference for comparison with the code: a processing of the line sequence
in which every line that is neither a data-marked payload nor the
end-of-stream sentinel fails the whole request instead of being skipped. -/
def strictStream : List String → Except String (List String)
  | [] => Except.ok []
  | line :: rest =>
    if startswith line "data: " then
      let data := line.drop 6
      if data = "[DONE]" then Except.ok []
      else
        match strictStream rest with
        | Except.ok tail => Except.ok (data :: tail)
        | Except.error e => Except.error e
    else
      Except.error "protocol violation"

/-- Outcome of one HTTP exchange with the completion backend: either a
transport-level failure or a response with a status code and a body. -/
inductive HttpOutcome where
  | transportFailure (msg : String)
  | response (status : Nat) (body : String)
deriving Repr, DecidableEq

/-- Embedding of the non-streaming branch of LLMClient.chat_completion
(llm.py lines 99-106): one POST request; raise_for_status turns any
non-2xx status into an exception, which the except clauses re-raise
(lines 108-113); on success the full response body is yielded as a single
unit. -/
def chat_completion_nostream (outcome : HttpOutcome) : Except String String :=
  match outcome with
  | HttpOutcome.transportFailure msg => Except.error msg
  | HttpOutcome.response status body =>
    if 200 ≤ status ∧ status < 300 then Except.ok body
    else Except.error ("HTTP status error: " ++ toString status)

/-- One item of the RAG context handed to create_rag_prompt: the chunk
content and the optional filename from its metadata (llm.py lines
133-135; a missing filename falls back to the fixed unknown label). -/
structure ContextItem where
  content : String
  filename : Option String
deriving Repr, DecidableEq

/-- The reference label built for one context item at llm.py
lines 137-139, from its 1-based position and its source filename. -/
def contextPart (pos : Nat) (item : ContextItem) : String :=
  "[参考資料 " ++ toString pos ++ ": " ++ item.filename.getD "不明" ++ "]\n" ++ item.content

/-- Embedding of the enumeration loop of create_rag_prompt (llm.py
lines 131-139): the items in their given order, each rendered with its
position counted from the given start value. -/
def contextParts : Nat → List ContextItem → List String
  | _, [] => []
  | pos, item :: rest => contextPart pos item :: contextParts (pos + 1) rest

/-- Embedding of create_rag_prompt (llm.py lines 116-149): with an empty
context the question is returned unchanged; otherwise the question is
followed by the fixed reference-section delimiter and the rendered items,
joined with blank lines, positions counted from 1. -/
def create_rag_prompt (context : List ContextItem) (question : String) : String :=
  if context.isEmpty then question
  else
    question ++ "\n\n参考資料:\n" ++ String.intercalate "\n\n" (contextParts 1 context)

end Spinach

namespace Spinach

/-- Claim C1: in streaming mode, chat_completion stops at the first line
whose data payload equals the terminal marker and forwards every
preceding data-marked payload in arrival order, unaltered except for the
removal of the data marker: the yielded events are exactly the payloads
of the data-marked lines, taken up to the first payload equal to the
terminal marker. -/
theorem chat_completion_stream_spec (lines : List String) :
    chat_completion_stream lines =
      (lines.filterMap dataPayload).takeWhile (fun d => d ≠ "[DONE]") := by
  induction lines with
  | nil => rfl
  | cons line rest ih =>
    by_cases h : startswith line "data: " = true
    · by_cases hd : line.drop 6 = "[DONE]"
      · simp [chat_completion_stream, dataPayload, h, hd, List.filterMap_cons,
          List.takeWhile_cons]
      · simp [chat_completion_stream, dataPayload, h, hd, List.filterMap_cons,
          List.takeWhile_cons, ih]
    · simp [chat_completion_stream, dataPayload, h, List.filterMap_cons, ih]

/-- Claim C2, counterexample: on a concrete line sequence containing a
line that is neither data-marked nor the sentinel, the code yields the
normal event list and raises no error, silently skipping the offending
line, whereas a processing that follows the spec sentence fails the
request there. -/
theorem stream_no_error_on_bad_line :
    chat_completion_stream ["not-sse", "data: hi", "data: [DONE]"] = ["hi"] ∧
    chat_completion_stream ["not-sse", "data: hi", "data: [DONE]"] =
      chat_completion_stream ["data: hi", "data: [DONE]"] ∧
    strictStream ["not-sse", "data: hi", "data: [DONE]"] =
      Except.error "protocol violation" := by
  refine ⟨by decide, by decide, rfl⟩

/-- Claim C2 as amended: a line that is neither a data-marked payload nor
the sentinel is silently skipped by the streaming loop: it contributes no
event and causes no failure, and the remaining lines are processed as if
it were absent. -/
theorem stream_skips_nondata (line : String) (rest : List String)
    (h : startswith line "data: " = false) :
    chat_completion_stream (line :: rest) = chat_completion_stream rest := by
  simp [chat_completion_stream, h]

/-- Witness for stream_skips_nondata at a concrete non-data line. -/
theorem stream_skips_nondata_witness :
    chat_completion_stream ["", "data: a"] = chat_completion_stream ["data: a"] :=
  stream_skips_nondata "" ["data: a"] (by decide)

/-- Claim C3: the request body sent to the backend is the conversation
unchanged when its first message has role system, and otherwise the
conversation with exactly the one fixed default system message
prepended (which covers the empty conversation). -/
theorem prepare_messages_spec (messages : List Message) :
    prepare_messages messages =
      if messages.head?.map Message.role = some "system" then messages
      else default_system_message :: messages := by
  cases messages with
  | nil => simp [prepare_messages]
  | cons m rest =>
    by_cases h : m.role = "system"
    · simp [prepare_messages, h]
    · simp [prepare_messages, h]

/-- Claim C4: create_rag_prompt applied to the empty context returns the
question string unchanged. -/
theorem create_rag_prompt_empty (question : String) :
    create_rag_prompt [] question = question := rfl

/-- The rendering loop counts positions exactly as an enumeration of the
items from the given start value, in their given order. -/
theorem contextParts_enumFrom (context : List ContextItem) :
    ∀ n, contextParts n context =
      (List.enumFrom n context).map (fun p => contextPart p.1 p.2) := by
  induction context with
  | nil => intro n; rfl
  | cons item rest ih => intro n; simp [contextParts, List.enumFrom, ih]

/-- Claim C5: on a non-empty context, create_rag_prompt returns the
question followed by the fixed reference-section delimiter and then the
context items in their given order, each labeled with its 1-based
position and its source filename and followed by its text; the output is
a pure function of the two arguments. -/
theorem create_rag_prompt_nonempty (question : String) (context : List ContextItem)
    (h : context ≠ []) :
    create_rag_prompt context question =
      question ++ "\n\n参考資料:\n" ++
        String.intercalate "\n\n"
          ((List.enumFrom 1 context).map (fun p =>
            "[参考資料 " ++ toString p.1 ++ ": " ++ p.2.filename.getD "不明" ++ "]\n" ++
              p.2.content)) := by
  have hne : context.isEmpty = false := by
    cases context with
    | nil => exact absurd rfl h
    | cons a l => rfl
  simp [create_rag_prompt, hne, contextParts_enumFrom, contextPart]

/-- Witness for create_rag_prompt_nonempty at a one-item context. -/
theorem create_rag_prompt_nonempty_witness :
    create_rag_prompt [(⟨"body", some "doc.md"⟩ : ContextItem)] "q" =
      "q" ++ "\n\n参考資料:\n" ++
        String.intercalate "\n\n"
          ((List.enumFrom 1 [(⟨"body", some "doc.md"⟩ : ContextItem)]).map (fun p =>
            "[参考資料 " ++ toString p.1 ++ ": " ++ p.2.filename.getD "不明" ++ "]\n" ++
              p.2.content)) :=
  create_rag_prompt_nonempty "q" [⟨"body", some "doc.md"⟩] (by decide)

/-- Claim C6: the non-streaming branch returns the full backend body as
one unit exactly on a 2xx status, and fails with an upstream error on
any transport failure and on any non-2xx status. -/
theorem chat_completion_nostream_spec (msg : String) (status : Nat) (body : String) :
    chat_completion_nostream (HttpOutcome.transportFailure msg) = Except.error msg ∧
    (200 ≤ status → status < 300 →
      chat_completion_nostream (HttpOutcome.response status body) = Except.ok body) ∧
    (status < 200 ∨ 300 ≤ status →
      chat_completion_nostream (HttpOutcome.response status body) =
        Except.error ("HTTP status error: " ++ toString status)) := by
  refine ⟨rfl, ?_, ?_⟩
  · intro h1 h2
    simp [chat_completion_nostream, h1, h2]
  · intro h
    have hn : ¬(200 ≤ status ∧ status < 300) := by omega
    simp [chat_completion_nostream, hn]

/-- Witness for chat_completion_nostream_spec at a success status, an
error status, and a transport failure. -/
theorem chat_completion_nostream_spec_witness :
    chat_completion_nostream (HttpOutcome.response 200 "full body") = Except.ok "full body" ∧
    chat_completion_nostream (HttpOutcome.response 404 "nf") =
      Except.error ("HTTP status error: " ++ toString 404) ∧
    chat_completion_nostream (HttpOutcome.transportFailure "boom") = Except.error "boom" :=
  ⟨(chat_completion_nostream_spec "boom" 200 "full body").2.1 (by decide) (by decide),
   (chat_completion_nostream_spec "boom" 404 "nf").2.2 (by omega),
   (chat_completion_nostream_spec "boom" 404 "nf").1⟩

end Spinach

namespace Spinach

/-- One record persisted in the vector store: chunk id, chunk text, and
the filename from its metadata, the key used for grouping and deletion. -/
structure StoredChunk where
  id : String
  text : String
  filename : String
deriving Repr, DecidableEq

/-- Modelled from the spec: the VectorStore operation deleteByFilter on
the filename key (vectordb.py is not among the given sources; spec
section 4.3): removes every record whose filename metadata equals the
value, atomically for the whole matching set, and returns the count
removed; 0 when nothing matched. -/
def delete_by_filename (store : List StoredChunk) (filename : String) :
    List StoredChunk × Nat :=
  (store.filter (fun c => c.filename != filename),
   (store.filter (fun c => c.filename == filename)).length)

/-- Embedding of the route delete_document (documents.py lines 192-222):
the store deletion runs first; a zero removed-count raises the 404
not-found error, otherwise the removed count is returned. -/
def delete_document (store : List StoredChunk) (filename : String) :
    List StoredChunk × Except Nat Nat :=
  let r := delete_by_filename store filename
  if r.2 = 0 then (r.1, Except.error 404) else (r.1, Except.ok r.2)

/-- Embedding of the route upload_document (documents.py lines 34-98)
after text extraction and cleaning; text_processing.py is not among the
given sources, so the downstream chunk construction is an explicit
parameter: a blank cleaned text fails with the empty-input error before
the chunker runs and before anything is appended to the store; otherwise
the chunks are built, appended, and counted. -/
def upload_document (store : List StoredChunk) (text filename : String)
    (mkChunks : String → String → List StoredChunk) :
    List StoredChunk × Except String Nat :=
  if strip_empty text then
    (store, Except.error "Failed to extract text from file or file is empty")
  else
    let chunks := mkChunks text filename
    (store ++ chunks, Except.ok chunks.length)

/-- Embedding of the filename adjustment of upload_text (documents.py
lines 362-365): a filename not ending in .md or .txt gets .md appended;
otherwise it is kept as given. -/
def text_upload_filename (filename : String) : String :=
  if endswith filename ".md" || endswith filename ".txt" then filename
  else filename ++ ".md"

/-- Embedding of the route upload_text (documents.py lines 343-396)
after cleaning, with the chunk construction an explicit parameter as for
upload_document: blank text fails with the empty-input error before
chunking and before any store write; otherwise chunks are built under
the adjusted filename, appended to the store, and counted. -/
def upload_text (store : List StoredChunk) (text filename : String)
    (mkChunks : String → String → List StoredChunk) :
    List StoredChunk × Except String Nat :=
  if strip_empty text then
    (store, Except.error "テキストが空です")
  else
    let chunks := mkChunks text (text_upload_filename filename)
    (store ++ chunks, Except.ok chunks.length)

/-- The application settings object of backend/config.py (lines 7-46),
with the numeric similarity threshold modelled as a rational number. -/
structure Settings where
  backend_port : Nat
  backend_host : String
  lm_studio_base_url : String
  lm_studio_model : String
  chroma_persist_dir : String
  chroma_collection_name : String
  embedding_model : String
  embedding_device : String
  rag_top_k : Int
  rag_similarity_threshold : Rat
  chunk_size : Nat
  chunk_overlap : Nat
  cors_origins : String
deriving Repr, DecidableEq

/-- The update payload as read by update_settings (main.py lines
198-214): only the three recognized keys matter; each is present or
absent independently.  Any other key of the incoming body is never read
by the route and therefore does not appear in the model. -/
structure SettingsUpdate where
  llm_base_url : Option String
  rag_top_k : Option Int
  rag_similarity_threshold : Option Rat
deriving Repr, DecidableEq

/-- Embedding of the route update_settings (main.py lines 191-228): each
recognized key, when present, assigns the corresponding settings field
and appends its name to the updated-fields list, in the order
llm.base_url, rag.top_k, rag.similarity_threshold; no other settings
field is assigned anywhere in the route. -/
def update_settings (s : Settings) (u : SettingsUpdate) : Settings × List String :=
  let step1 :=
    match u.llm_base_url with
    | some v => ({ s with lm_studio_base_url := v }, ["llm.base_url"])
    | none => (s, [])
  let step2 :=
    match u.rag_top_k with
    | some v => ({ step1.1 with rag_top_k := v }, step1.2 ++ ["rag.top_k"])
    | none => step1
  match u.rag_similarity_threshold with
  | some v =>
    ({ step2.1 with rag_similarity_threshold := v },
     step2.2 ++ ["rag.similarity_threshold"])
  | none => step2

end Spinach

namespace Spinach

/-- Claim C7: the delete route fails with the 404 not-found error exactly
when the count of chunks matching the filename is zero, and otherwise
returns the removed-chunk count exactly as reported by the store
deletion. -/
theorem delete_document_spec (store : List StoredChunk) (filename : String) :
    ((delete_document store filename).2 = Except.error 404 ↔
      (store.filter (fun c => c.filename == filename)).length = 0) ∧
    (0 < (delete_by_filename store filename).2 →
      (delete_document store filename).2 =
        Except.ok (delete_by_filename store filename).2) := by
  by_cases h : (store.filter (fun c => c.filename == filename)).length = 0
  · constructor
    · simp [delete_document, delete_by_filename, h]
    · intro hpos
      simp [delete_by_filename, h] at hpos
  · constructor
    · simp [delete_document, delete_by_filename, h]
    · intro hpos
      simp [delete_document, delete_by_filename, h]

/-- Witness for delete_document_spec on a store holding one matching
chunk and on the empty store. -/
theorem delete_document_spec_witness :
    (delete_document [(⟨"a_0", "text", "a.md"⟩ : StoredChunk)] "a.md").2 =
      Except.ok (delete_by_filename [(⟨"a_0", "text", "a.md"⟩ : StoredChunk)] "a.md").2 ∧
    (delete_document ([] : List StoredChunk) "a.md").2 = Except.error 404 :=
  ⟨(delete_document_spec [⟨"a_0", "text", "a.md"⟩] "a.md").2 (by decide),
   ((delete_document_spec ([] : List StoredChunk) "a.md").1).mpr (by decide)⟩

/-- Claim C8: a cleaned text with no non-whitespace character makes both
ingestion routes fail with their empty-input error, with the store left
exactly as it was, whatever chunk construction would have run: neither
chunking nor any store write takes place. -/
theorem upload_blank_rejected (store : List StoredChunk) (text filename : String)
    (mkChunks : String → String → List StoredChunk)
    (h : strip_empty text = true) :
    upload_document store text filename mkChunks =
      (store, Except.error "Failed to extract text from file or file is empty") ∧
    upload_text store text filename mkChunks =
      (store, Except.error "テキストが空です") := by
  constructor <;> simp [upload_document, upload_text, h]

/-- Witness for upload_blank_rejected at a whitespace-only text. -/
theorem upload_blank_rejected_witness :
    upload_document [] " \n" "a" (fun t f => [(⟨"c0", t, f⟩ : StoredChunk)]) =
      ([], Except.error "Failed to extract text from file or file is empty") ∧
    upload_text [] " \n" "a" (fun t f => [(⟨"c0", t, f⟩ : StoredChunk)]) =
      ([], Except.error "テキストが空です") :=
  upload_blank_rejected [] " \n" "a" (fun t f => [⟨"c0", t, f⟩]) (by decide)

/-- Claim C9: whatever update payload the settings route receives, every
settings field other than the completion base URL, the RAG top-K and the
RAG similarity threshold is unchanged by the call. -/
theorem update_settings_frame (s : Settings) (u : SettingsUpdate) :
    (update_settings s u).1.backend_port = s.backend_port ∧
    (update_settings s u).1.backend_host = s.backend_host ∧
    (update_settings s u).1.lm_studio_model = s.lm_studio_model ∧
    (update_settings s u).1.chroma_persist_dir = s.chroma_persist_dir ∧
    (update_settings s u).1.chroma_collection_name = s.chroma_collection_name ∧
    (update_settings s u).1.embedding_model = s.embedding_model ∧
    (update_settings s u).1.embedding_device = s.embedding_device ∧
    (update_settings s u).1.chunk_size = s.chunk_size ∧
    (update_settings s u).1.chunk_overlap = s.chunk_overlap ∧
    (update_settings s u).1.cors_origins = s.cors_origins := by
  rcases u with ⟨b, k, t⟩
  cases b <;> cases k <;> cases t <;> simp [update_settings]

/-- Claim C10: on non-blank text, the upload_text route stores its chunks
under the adjusted filename; a supplied filename ending in neither .md
nor .txt gets .md appended, so the stored grouping key differs from the
supplied name, while a filename already ending in .md or .txt is used
unchanged. -/
theorem upload_text_filename_spec (store : List StoredChunk) (text filename : String)
    (mkChunks : String → String → List StoredChunk)
    (h : strip_empty text = false) :
    upload_text store text filename mkChunks =
      (store ++ mkChunks text (text_upload_filename filename),
       Except.ok (mkChunks text (text_upload_filename filename)).length) ∧
    (endswith filename ".md" = false → endswith filename ".txt" = false →
      text_upload_filename filename = filename ++ ".md" ∧
      text_upload_filename filename ≠ filename) ∧
    (endswith filename ".md" = true ∨ endswith filename ".txt" = true →
      text_upload_filename filename = filename) := by
  refine ⟨by simp [upload_text, h], ?_, ?_⟩
  · intro h1 h2
    have heq : text_upload_filename filename = filename ++ ".md" := by
      simp [text_upload_filename, h1, h2]
    refine ⟨heq, ?_⟩
    rw [heq]
    intro hcontra
    have hlen := congrArg String.length hcontra
    rw [String.length_append] at hlen
    have h3 : (".md" : String).length = 3 := rfl
    rw [h3] at hlen
    omega
  · intro h3
    rcases h3 with h3 | h3 <;> simp [text_upload_filename, h3]

/-- Witness for upload_text_filename_spec: a bare filename gets .md
appended and the chunks land under the new key; a filename already
ending in .md stays as supplied. -/
theorem upload_text_filename_spec_witness :
    upload_text [] "hello" "notes" (fun t f => [(⟨"c0", t, f⟩ : StoredChunk)]) =
      ([] ++ (fun t f => [(⟨"c0", t, f⟩ : StoredChunk)]) "hello" (text_upload_filename "notes"),
       Except.ok ((fun t f => [(⟨"c0", t, f⟩ : StoredChunk)]) "hello"
         (text_upload_filename "notes")).length) ∧
    (text_upload_filename "notes" = "notes" ++ ".md" ∧
      text_upload_filename "notes" ≠ "notes") ∧
    text_upload_filename "a.md" = "a.md" :=
  ⟨(upload_text_filename_spec [] "hello" "notes" (fun t f => [⟨"c0", t, f⟩])
      (by decide)).1,
   (upload_text_filename_spec [] "hello" "notes" (fun t f => [⟨"c0", t, f⟩])
      (by decide)).2.1 (by decide) (by decide),
   (upload_text_filename_spec [] "hello" "a.md" (fun t f => [⟨"c0", t, f⟩])
      (by decide)).2.2 (Or.inl (by decide))⟩

end Spinach

